import Mathlib

/-!
Verification development for the flat-sale-announcements scraper.

The TypeScript source (src/pageScraper/scraper.ts and the unnamed scraper
module) is shallowly embedded below.  Pure functions of the source become
Lean functions; the stateful crawl loops become explicit recursion over the
loop state (with a fuel argument where the source loop is not structurally
recursive); JavaScript exceptions become `Except`; the dynamically typed
`Date | string` result of the date parser becomes `SimpleDate ⊕ String`;
JavaScript `undefined` flowing into a parameter becomes `Option String`.
External collaborators (puppeteer, cheerio, Intl date formatting, the
epoch-milliseconds view of a calendar date) are abstracted as parameters.
-/

deriving instance DecidableEq for Except

namespace FlatScrape

/- ## JavaScript string / number primitives used by the source -/

/-- Value of a decimal digit character. -/
def digitVal (c : Char) : Nat := c.toNat - 48

/-- Decimal digits to a natural number (most significant first). -/
def digitsToNat (cs : List Char) : Nat :=
  cs.foldl (fun acc c => 10 * acc + digitVal c) 0

/-- Maximal run of leading decimal digits of a character list. -/
def leadingDigits : List Char → List Char
  | [] => []
  | c :: rest => if c.isDigit then c :: leadingDigits rest else []

/-- JavaScript `parseInt(s, 10)` on the tokens this program feeds it:
`none` models `NaN`; otherwise the value of the maximal leading digit run.
(Signs and exotic leading whitespace do not occur in the modelled tokens.) -/
def jsParseInt (s : String) : Option Nat :=
  match leadingDigits s.toList with
  | [] => none
  | ds => some (digitsToNat ds)

/-- JavaScript unary `+s` (`Number(s)`) on the tokens this program feeds it:
`some n` when the token is a nonempty all-digit numeral, `none` for `NaN`. -/
def jsToNumber (s : String) : Option Nat :=
  let cs := s.toList
  if cs ≠ [] ∧ cs.all (fun c => c.isDigit) then some (digitsToNat cs) else none

/-- `parseInt` applied to a possibly-`undefined` array element
(`parseInt(undefined)` is `NaN`). -/
def jsParseIntOpt (s : Option String) : Option Nat :=
  match s with
  | none => none
  | some t => jsParseInt t

/-- Unary `+` applied to a possibly-`undefined` array element
(`+undefined` is `NaN`). -/
def jsToNumberOpt (s : Option String) : Option Nat :=
  match s with
  | none => none
  | some t => jsToNumber t

/-- JavaScript string coercion of a possibly-`undefined` value, as it occurs
in string concatenation. -/
def jsStr (s : Option String) : String :=
  match s with
  | none => "undefined"
  | some t => t

/-- Splitter on a single separator character, as JavaScript
`s.split(sep)` (empty pieces are kept). -/
def splitChAux (sep : Char) : List Char → List Char → List String
  | [], cur => [String.mk cur.reverse]
  | c :: rest, cur =>
    if c = sep then String.mk cur.reverse :: splitChAux sep rest []
    else splitChAux sep rest (c :: cur)

/-- JavaScript `s.split(sep)` for a one-character separator. -/
def jsSplitChar (sep : Char) (s : String) : List String :=
  splitChAux sep s.toList []

/-- `olxTime.split(' ').filter((x) => x !== '')` from `parseOlxAdTime`. -/
def jsSplitFilter (s : String) : List String :=
  (jsSplitChar ' ' s).filter (fun t => t ≠ "")

/-- JavaScript `s.substr(0, 3)`. -/
def strTake3 (s : String) : String :=
  String.mk (s.toList.take 3)

/-- Does `small` occur at the head of `big`? -/
def charsStartsWith : List Char → List Char → Bool
  | [], _ => true
  | _ :: _, [] => false
  | p :: ps, c :: cs => p = c && charsStartsWith ps cs

/-- Substring occurrence test (JavaScript `RegExp.test` for a literal). -/
def charsContains (pat : List Char) : List Char → Bool
  | [] => charsStartsWith pat []
  | c :: rest => charsStartsWith pat (c :: rest) || charsContains pat rest

/-- The locale word for "today" used by the site. -/
def dzisiajStr : String := "dzisiaj"

/-- The locale word for "yesterday" used by the site. -/
def wczorajStr : String := "wczoraj"

/-- Single space, used when the source rebuilds a raw label from tokens. -/
def spaceStr : String := " "

/-- The empty string (JavaScript comparison default for a missing head). -/
def emptyStr : String := ""

/-- `/(dzisiaj|wczoraj)/.test(dt)` from `parseOlxPageAds`. -/
def testTodayYesterday (s : String) : Bool :=
  charsContains dzisiajStr.toList s.toList || charsContains wczorajStr.toList s.toList

/- ## Data model -/

/-- JavaScript exceptions raised by the date-normalization code:
`valueError` is the `Error('Unrecognized month prefix')` throw, and
`typeError` is the implicit crash of calling a method on `undefined`. -/
inductive JsError where
  | valueError : JsError
  | typeError : JsError
  deriving DecidableEq

/-- A JavaScript `Date` as the source constructs it: raw calendar
components, exactly as passed to `new Date(...)` (out-of-range components
are kept unnormalized; normalization belongs to the external Date engine).
Months are 0-based as in JavaScript. -/
structure SimpleDate where
  year : Int
  month : Int
  day : Int
  hour : Int
  minute : Int
  deriving DecidableEq

/- ## DateNormalizer (parseOlxAdTime and helpers) -/

/-- `mapMonthPrefixToMonth` from the source: maps a Polish 3-letter month
fragment either to the 0-based month number or to the full name, and throws
`Error('Unrecognized month prefix')` otherwise. -/
def mapMonthPrefixToMonth (mp : String) (asNumber : Bool) : Except JsError (Nat ⊕ String) :=
  match mp with
  | "sty" => Except.ok (if asNumber then Sum.inl 0 else Sum.inr "styczeń")
  | "lut" => Except.ok (if asNumber then Sum.inl 1 else Sum.inr "luty")
  | "mar" => Except.ok (if asNumber then Sum.inl 2 else Sum.inr "marzec")
  | "kwi" => Except.ok (if asNumber then Sum.inl 3 else Sum.inr "kwiecień")
  | "maj" => Except.ok (if asNumber then Sum.inl 4 else Sum.inr "maj")
  | "cze" => Except.ok (if asNumber then Sum.inl 5 else Sum.inr "czerwiec")
  | "lip" => Except.ok (if asNumber then Sum.inl 6 else Sum.inr "lipiec")
  | "sie" => Except.ok (if asNumber then Sum.inl 7 else Sum.inr "sierpień")
  | "wrz" => Except.ok (if asNumber then Sum.inl 8 else Sum.inr "wrzesień")
  | "paź" => Except.ok (if asNumber then Sum.inl 9 else Sum.inr "październik")
  | "paz" => Except.ok (if asNumber then Sum.inl 9 else Sum.inr "październik")
  | "lis" => Except.ok (if asNumber then Sum.inl 10 else Sum.inr "listopad")
  | "gru" => Except.ok (if asNumber then Sum.inl 11 else Sum.inr "grudzień")
  | _ => Except.error JsError.valueError

/-- The `isNaN(dayNum) || +day !== dayNum` round-trip check of
`parseOlxAdDateWithMontPrefix`: `some n` exactly when `parseInt` yields `n`
and unary `+` yields the same `n`. -/
def dayRoundTrip (day : Option String) : Option Nat :=
  match jsParseIntOpt day, jsToNumberOpt day with
  | some n, some v => if v = n then some n else none
  | _, _ => none

/-- `parseOlxAdDateWithMontPrefix` from the source.  `today` is the
`new Date()` taken inside the function (only `getFullYear` and `getDate`
are consulted).  The `monthPrefix` and `day` arguments are `Option` because
`parseOlxAdTime` passes `olxTimeArr[1]` / `olxTimeArr[0]`, which are
`undefined` when fewer than two tokens exist; `undefined.substr` throws a
TypeError. -/
def parseOlxAdDateWithMontPrefix (today : SimpleDate) (mp day : Option String) :
    Except JsError (SimpleDate ⊕ String) :=
  match mp with
  | none => Except.error JsError.typeError
  | some mpS =>
    let mp3 := strTake3 mpS
    match dayRoundTrip day with
    | none => Except.ok (Sum.inr (jsStr day ++ spaceStr ++ mp3))
    | some dayNum =>
      match mapMonthPrefixToMonth mp3 true with
      | Except.error e => Except.error e
      | Except.ok (Sum.inr _) => Except.error JsError.typeError
      | Except.ok (Sum.inl monthNum) =>
        let year : Int :=
          if monthNum = 11 ∧ today.day < (dayNum : Int) then today.year - 1 else today.year
        Except.ok (Sum.inl
          { year := year, month := (monthNum : Int), day := (dayNum : Int),
            hour := 0, minute := 0 })

/-- The four-way `isNaN(hour) || isNaN(minutes) || hour !== +timeArr[0] ||
minutes !== +timeArr[1]` check of `parseOlxAdTimeWithTodayYesterday`:
`some (h, m)` exactly when both positions parse and round-trip. -/
def hmRoundTrip (t : String) : Option (Nat × Nat) :=
  let timeArr := jsSplitChar ':' t
  match jsParseIntOpt timeArr[0]?, jsToNumberOpt timeArr[0]?,
        jsParseIntOpt timeArr[1]?, jsToNumberOpt timeArr[1]? with
  | some h, some h2, some m, some m2 =>
    if h2 = h ∧ m2 = m then some (h, m) else none
  | _, _, _, _ => none

/-- `parseOlxAdTimeWithTodayYesterday` from the source.  `today` is the
`new Date()` taken inside the function.  `time` is `olxTimeArr[1]`, which is
`undefined` for a lone "dzisiaj"/"wczoraj" token; `undefined.split` throws a
TypeError. -/
def parseOlxAdTimeWithTodayYesterday (today : SimpleDate) (daySynonym : String)
    (time : Option String) : Except JsError (SimpleDate ⊕ String) :=
  match time with
  | none => Except.error JsError.typeError
  | some t =>
    match hmRoundTrip t with
    | none => Except.ok (Sum.inr (daySynonym ++ spaceStr ++ t))
    | some (hour, minutes) =>
      Except.ok (Sum.inl
        { year := today.year, month := today.month,
          day := today.day + (if daySynonym = wczorajStr then -1 else 0),
          hour := (hour : Int), minute := (minutes : Int) })

/-- `parseOlxAdTime` from the source: tokenize on spaces dropping empty
tokens; more than two tokens is returned raw; a leading today/yesterday
word goes to the clock-time parser; anything else goes to the
month-abbreviation parser with `arr[1]` (possibly `undefined`) as the month
and `arr[0]` as the day. -/
def parseOlxAdTime (today : SimpleDate) (olxTime : String) :
    Except JsError (SimpleDate ⊕ String) :=
  let arr := jsSplitFilter olxTime
  if arr.length > 2 then Except.ok (Sum.inr olxTime)
  else if arr.headD emptyStr = dzisiajStr ∨ arr.headD emptyStr = wczorajStr then
    parseOlxAdTimeWithTodayYesterday today (arr.headD emptyStr) arr[1]?
  else
    parseOlxAdDateWithMontPrefix today arr[1]? arr[0]?

/- ## Staleness cutoff (inlined in parseOlxPageAds, lines 318-321) -/

/-- `DAY_MS` from the constants module: one day in milliseconds. -/
def DAY_MS : Int := 86400000

/-- The staleness decision inlined in `parseOlxPageAds`:
`Date.now() - (DAY_MS + 1000 * 30) > parsedDate.getTime() -
(isTodayOrYesterday ? 0 : DAY_MS)`. -/
def olxIsStale (nowMs tsMs : Int) (isTodayOrYesterday : Bool) : Bool :=
  decide (nowMs - (DAY_MS + 1000 * 30) > tsMs - (if isTodayOrYesterday then 0 else DAY_MS))

/- ## RecordExtractor (parseOlxPageAds) -/

/-- One listing entry as read off the page by the cheerio selectors of
`parseOlxPageAds`: the visible date text and the other scraped fields. -/
structure Ad where
  dt : String
  title : String
  priceText : String
  url : String
  imgUrl : String
  deriving DecidableEq

/-- One produced record (`Announcement` in the source), including the
debug metadata `{ url, idx }` stamped on every record. -/
structure Announcement where
  dt : String
  title : String
  price : String
  url : String
  imgUrl : String
  description : String
  debugUrl : String
  debugIdx : Nat
  deriving DecidableEq

/-- The collaborators `parseOlxPageAds` consults: `today` is `new Date()`
inside the date parsers, `nowMs` is `Date.now()`, `getTime` is the Date
engine's epoch-milliseconds view of a constructed calendar date, `fmt` is
`toLocaleString` with the date-time or date-only format parameters, and
`pageUrl` is the shared `_debugInfo.url`. -/
structure OlxEnv where
  today : SimpleDate
  nowMs : Int
  getTime : SimpleDate → Int
  fmt : SimpleDate → Bool → String
  pageUrl : String

/-- JavaScript `' \n'`-stripping and trim of the title:
`.text().replace(/[\n]/gi, '').trim()`. -/
def cleanTitle (s : String) : String :=
  (String.mk (s.toList.filter (fun c => c ≠ '\n'))).trim

/-- Price normalization from the source:
`.replace(/[^\d\.,]/gi, '').replace(/,/g, '.')`. -/
def stripPrice (s : String) : String :=
  String.mk ((s.toList.filter (fun c => c.isDigit || c = '.' || c = ',')).map
    (fun c => if c = ',' then '.' else c))

/-- Assembly of one record at positional index `i`, with `dtStr` the
already-decided value of the record's `dt` field. -/
def mkAnn (env : OlxEnv) (i : Nat) (ad : Ad) (dtStr : String) : Announcement :=
  { dt := dtStr
    title := cleanTitle ad.title
    price := stripPrice ad.priceText
    url := ad.url
    imgUrl := ad.imgUrl
    description := ""
    debugUrl := env.pageUrl
    debugIdx := i }

/-- The entry loop of `parseOlxPageAds`, with `i` the positional index of
the next entry.  A parse exception aborts the whole extraction (the
accumulated records are lost with it); a stale timestamp returns the
records accumulated so far with `done = true`, discarding the current and
all remaining entries; otherwise the record is kept and the loop continues.
The final fall-through returns all records with `done = false`. -/
def parseOlxPageAdsGo (env : OlxEnv) : Nat → List Ad → Except JsError (List Announcement × Bool)
  | _, [] => Except.ok ([], false)
  | i, ad :: rest =>
    match parseOlxAdTime env.today ad.dt with
    | Except.error e => Except.error e
    | Except.ok (Sum.inl d) =>
      let isTY := testTodayYesterday ad.dt
      if olxIsStale env.nowMs (env.getTime d) isTY then Except.ok ([], true)
      else
        match parseOlxPageAdsGo env (i + 1) rest with
        | Except.error e => Except.error e
        | Except.ok (anns, done) => Except.ok (mkAnn env i ad (env.fmt d isTY) :: anns, done)
    | Except.ok (Sum.inr s) =>
      match parseOlxPageAdsGo env (i + 1) rest with
      | Except.error e => Except.error e
      | Except.ok (anns, done) => Except.ok (mkAnn env i ad s :: anns, done)

/-- `parseOlxPageAds` from the source, over the entries in document order. -/
def parseOlxPageAds (env : OlxEnv) (ads : List Ad) : Except JsError (List Announcement × Bool) :=
  parseOlxPageAdsGo env 0 ads

/-- Classification of one entry, used to state properties of the loop:
`throws` when its date text makes the parser raise, `raw` when the date
text comes back unparsed, and `stale` / `fresh` by the cutoff decision on a
parsed timestamp. -/
inductive AdClass where
  | throws : AdClass
  | raw : AdClass
  | stale : AdClass
  | fresh : AdClass
  deriving DecidableEq

/-- Classify one entry the way the loop body of `parseOlxPageAds` does. -/
def classifyAd (env : OlxEnv) (ad : Ad) : AdClass :=
  match parseOlxAdTime env.today ad.dt with
  | Except.error _ => AdClass.throws
  | Except.ok (Sum.inr _) => AdClass.raw
  | Except.ok (Sum.inl d) =>
    if olxIsStale env.nowMs (env.getTime d) (testTodayYesterday ad.dt) then AdClass.stale
    else AdClass.fresh

/-- The record a kept (raw or fresh) entry contributes at index `i`. -/
def keptAnn (env : OlxEnv) (i : Nat) (ad : Ad) : Announcement :=
  match parseOlxAdTime env.today ad.dt with
  | Except.ok (Sum.inl d) => mkAnn env i ad (env.fmt d (testTodayYesterday ad.dt))
  | Except.ok (Sum.inr s) => mkAnn env i ad s
  | Except.error _ => mkAnn env i ad emptyStr

/-- The records a block of kept entries contributes, indexed from `i`. -/
def keptList (env : OlxEnv) (i : Nat) : List Ad → List Announcement
  | [] => []
  | ad :: rest => keptAnn env i ad :: keptList env (i + 1) rest

/- ## PaginationEngine (getOlxUrlsToNextPages) -/

/-- The `&page=` query fragment appended by the source. -/
def pageQueryStr : String := "&page="

/-- The `for (let i = 2; i < pagesCount; i++)` loop of
`getOlxUrlsToNextPages`, generalized over the loop counter. -/
def olxNextPagesLoop (baseUrl : String) (pagesCount i : Nat) : List String :=
  if i < pagesCount then
    (baseUrl ++ pageQueryStr ++ toString i) :: olxNextPagesLoop baseUrl pagesCount (i + 1)
  else []
termination_by pagesCount - i

/-- `getOlxUrlsToNextPages` from the source: `pagesCount` is the number of
pagination-link elements counted on the parsed first page; `baseUrl` is the
`Urls.Olx` constant the source appends to. -/
def getOlxUrlsToNextPages (baseUrl : String) (pagesCount : Nat) : List String :=
  olxNextPagesLoop baseUrl pagesCount 2

/- ## PageLoader (getPage) -/

/-- The retry loop of `getPage`, driven by the outcome of each `loadPage`
attempt (`loadResults k` is attempt `k`: `some page` on success, `none`
when `loadPage` threw).  State: remaining `fuel` (number of loop iterations
still observed), the attempt counter, and the elapsed wall-clock
milliseconds since `startTime`.  On failure the source compares the
elapsed time against `config.scrapeSiteTimeout`, but the `new Error(...)`
it builds there is neither thrown nor returned, so the comparison has no
effect on control flow — the loop always sleeps
`min(retries, 15) * 1000` ms and retries.  The result is `some page` when
an attempt within `fuel` succeeds and `none` when the loop is still
running after `fuel` iterations. -/
def getPageGo (loadResults : Nat → Option Nat) (timeoutCfg : Nat) :
    Nat → Nat → Nat → Option Nat
  | 0, _, _ => none
  | fuel + 1, attempt, elapsed =>
    match loadResults attempt with
    | some page => some page
    | none =>
      let retries := attempt + 1
      let timeoutMs := (if retries < 15 then retries else 15) * 1000
      getPageGo loadResults timeoutCfg fuel (attempt + 1) (elapsed + timeoutMs)

/-- A page that fails to load on every attempt. -/
def failLoader : Nat → Option Nat := fun _ => none

/- ## SiteCrawler (getSiteOffers / getAnnouncements) -/

/-- Site-level error values: a load failure surfaced by `getPage`, the
`ValueError` escaping extraction, or a persistence failure. -/
inductive CrawlErr where
  | loadFail : CrawlErr
  | valueErr : CrawlErr
  | persistErr : CrawlErr
  deriving DecidableEq

/-- The do-while page loop of `getSiteOffers`.  Collaborators: `load` is
`this.getPage` (an `Except.error` is the caught `throw`), `extract` is
`getScraperPageAds` (which can throw), `nexts` is
`siteScraper.getUrlsToNextPages` on the first page's content.  State:
accumulated `offers`, the pending `pageUrls` queue and
`scrapedPagesCount`.  Page contents and records are opaque `Nat` ids.
Outer `none` means the observed fuel ran out; `Except.error` models an
exception escaping `getSiteOffers`; `Except.ok (offers, err?)` is the
`[offers, error]` tuple the source returns. -/
def getSiteOffersGo (load : String → Except CrawlErr Nat)
    (extract : Nat → Except CrawlErr (List Nat × Bool))
    (nexts : Nat → List String) :
    Nat → List Nat → List String → Nat → Option (Except CrawlErr (List Nat × Option CrawlErr))
  | 0, _, _, _ => none
  | _ + 1, offers, [], _ => some (Except.ok (offers, none))
  | fuel + 1, offers, url :: rest, cnt =>
    match load url with
    | Except.error e => some (Except.ok (offers, some e))
    | Except.ok content =>
      match extract content with
      | Except.error e => some (Except.error e)
      | Except.ok (pageOffers, isDone) =>
        let offers2 := offers ++ pageOffers
        let cnt2 := cnt + 1
        let queue := if isDone = false ∧ cnt2 = 1 then rest ++ nexts content else rest
        if isDone = false ∧ queue.length > 0 then
          getSiteOffersGo load extract nexts fuel offers2 queue cnt2
        else some (Except.ok (offers2, none))

/-- `getSiteOffers` from the source: the loop starts with the site's start
URL as the only queued page, no records and a zero page counter. -/
def getSiteOffers (load : String → Except CrawlErr Nat)
    (extract : Nat → Except CrawlErr (List Nat × Bool))
    (nexts : Nat → List String) (startUrl : String) (fuel : Nat) :
    Option (Except CrawlErr (List Nat × Option CrawlErr)) :=
  getSiteOffersGo load extract nexts fuel [] [startUrl] 0

/- ## Per-site caller (scrapeSiteOffers) -/

/-- The externally visible effects of one `scrapeSiteOffers` call that
completes: the records handed to `saveSiteOffers` (the per-site output
file) and the count written to the success log line. -/
structure SiteRunEffects where
  savedOffers : List Nat
  loggedCount : Nat
  deriving DecidableEq

/-- Outcome of one `scrapeSiteOffers` call. -/
inductive SiteRunOutcome where
  | completed : SiteRunEffects → SiteRunOutcome
  | threw : CrawlErr → SiteRunOutcome
  deriving DecidableEq

/-- `scrapeSiteOffers` from the source, as a function of what
`getSiteOffers` produced.  An exception from the crawl propagates (there is
no try/catch).  A returned `[todayOffers, error]` tuple is destructured and
the `error` component is never read again (the `// @todo: handle error`
site): the offers are saved and their count logged unconditionally. -/
def scrapeSiteOffersModel (crawlResult : Except CrawlErr (List Nat × Option CrawlErr)) :
    SiteRunOutcome :=
  match crawlResult with
  | Except.error e => SiteRunOutcome.threw e
  | Except.ok (offers, _error) =>
    SiteRunOutcome.completed { savedOffers := offers, loggedCount := offers.length }

/- ## Orchestrator (scrapeOffers / scrapeAnnouncements) -/

/-- `Promise.all` over the batch of launched per-site promises: the await
resumes with the first rejection, or normally when none rejects.
`outcome s` is whether site `s`'s `scrapeSiteOffers` promise rejects. -/
def firstErr (outcome : String → Option CrawlErr) : List String → Option CrawlErr
  | [] => none
  | s :: rest =>
    match outcome s with
    | some e => some e
    | none => firstErr outcome rest

/-- The while loop of `scrapeOffers` (unnamed module): pushes the promise
for `sites[siteIndex]`, then (after `++siteIndex`) for the next site when
one exists, then increments `siteIndex` once more and awaits both — so the
next iteration starts two past where this one started.  The result lists
the launched batches in order, and the error with which the loop's await
rejected, if any (a rejection ends `scrapeOffers`; later batches never
run). -/
def scrapeOffersFrom (outcome : String → Option CrawlErr) (sites : List String) (i : Nat) :
    List (List String) × Option CrawlErr :=
  if h : i < sites.length then
    let batch :=
      if h2 : i + 1 < sites.length then [sites[i], sites[i + 1]] else [sites[i]]
    match firstErr outcome batch with
    | some e => ([batch], some e)
    | none =>
      let rest := scrapeOffersFrom outcome sites (i + 2)
      (batch :: rest.1, rest.2)
  else ([], none)
termination_by sites.length - i

/-- `scrapeOffers` started at the first site. -/
def scrapeOffers (outcome : String → Option CrawlErr) (sites : List String) :
    List (List String) × Option CrawlErr :=
  scrapeOffersFrom outcome sites 0

/-- The while loop of `scrapeAnnouncements` (scraper.ts): identical to
`scrapeOffersFrom` except that the extra `siteIndex++` before the await is
missing, so the next iteration starts only one past where this one
started. -/
def scrapeAnnouncementsFrom (outcome : String → Option CrawlErr) (sites : List String)
    (i : Nat) : List (List String) × Option CrawlErr :=
  if h : i < sites.length then
    let batch :=
      if h2 : i + 1 < sites.length then [sites[i], sites[i + 1]] else [sites[i]]
    match firstErr outcome batch with
    | some e => ([batch], some e)
    | none =>
      let rest := scrapeAnnouncementsFrom outcome sites (i + 1)
      (batch :: rest.1, rest.2)
  else ([], none)
termination_by sites.length - i

/-- `scrapeAnnouncements` started at the first site. -/
def scrapeAnnouncements (outcome : String → Option CrawlErr) (sites : List String) :
    List (List String) × Option CrawlErr :=
  scrapeAnnouncementsFrom outcome sites 0

/-- Consecutive pairs of a list, the odd final element alone: the intended
batching of the orchestrator. -/
def pairChunks : List String → List (List String)
  | [] => []
  | [a] => [[a]]
  | a :: b :: rest => [a, b] :: pairChunks rest

/-- A per-site outcome with no failures. -/
def noSiteErr : String → Option CrawlErr := fun _ => none

/- ## Concrete inputs used by the witnesses and counterexamples -/

/-- Concrete site name. -/
def siteA : String := "a"

/-- Concrete site name. -/
def siteB : String := "b"

/-- Concrete site name. -/
def siteC : String := "c"

/-- Concrete page URL. -/
def urlOne : String := "u1"

/-- Concrete page URL. -/
def urlTwo : String := "u2"

/-- A run where the crawl of `siteA` rejects with the extraction
`ValueError` and every other site succeeds. -/
def outFailA : String → Option CrawlErr :=
  fun s => if s = siteA then some CrawlErr.valueErr else none

/-- A loader where `urlOne` yields page `1` and any other URL page `2`. -/
def loadW : String → Except CrawlErr Nat :=
  fun u => if u = urlOne then Except.ok 1 else Except.ok 2

/-- A loader whose every attempt throws. -/
def loadFailW : String → Except CrawlErr Nat := fun _ => Except.error CrawlErr.loadFail

/-- An extractor where page `1` yields two records and is not done, and any
other page throws the `ValueError`. -/
def extractW : Nat → Except CrawlErr (List Nat × Bool) :=
  fun c => if c = 1 then Except.ok ([10, 11], false) else Except.error CrawlErr.valueErr

/-- Pagination returning one further page URL. -/
def nextsW : Nat → List String := fun _ => [urlTwo]

/-- The spec's month-shape test vector: day 29 of December ("gru"). -/
def s29gru : String := "29 gru"

/-- Its first token. -/
def d29Str : String := "29"

/-- Its second token. -/
def gruStr : String := "gru"

/-- A concrete "now" for the date-parsing witnesses: 2024-01-10. -/
def todayW : SimpleDate := { year := 2024, month := 0, day := 10, hour := 0, minute := 0 }

/-- Three tokens: unparseable, returned as-is. -/
def strABC : String := "a b c"

/-- Whitespace only: zero tokens after filtering. -/
def strSpace : String := " "

/-- A single token that is not a today/yesterday word. -/
def strAbc : String := "abc"

/-- Two tokens whose first fails the numeric round-trip. -/
def strXGrudnia : String := "x grudnia"

/-- The label the source rebuilds for `strXGrudnia` (not the original). -/
def strXgru : String := "x gru"

/-- Two tokens with an integer day and an unrecognized month fragment. -/
def str12xyz : String := "12 xyz"

/-- A today word with a clock token that fails the numeric round-trip. -/
def strDz9x : String := "dzisiaj 9x"

/-- First token of `strXGrudnia`. -/
def strXtok : String := "x"

/-- Second token of `strXGrudnia`. -/
def strGrudniaTok : String := "grudnia"

/-- First token of `str12xyz`. -/
def str12tok : String := "12"

/-- Second token of `str12xyz`. -/
def strXyzTok : String := "xyz"

/-- Second token of `strDz9x`. -/
def str9xTok : String := "9x"

/-- A fresh same-day date text: parsed with hour and minute. -/
def strDz1030 : String := "dzisiaj 10:30"

/-- A month-shape date text far older than the cutoff. -/
def str1sty : String := "1 sty"

/-- Epoch view of a constructed calendar date for the extraction witness:
day-of-month times one day of milliseconds. -/
def getTimeW : SimpleDate → Int := fun d => d.day * DAY_MS

/-- Opaque `toLocaleString` for the extraction witness. -/
def fmtW : SimpleDate → Bool → String := fun _ _ => "fmt"

/-- The `_debugInfo.url` value for the extraction witness. -/
def pageUrlW : String := "page-url"

/-- Extraction environment: now = 11 days into the epoch view, today =
2024-01-10. -/
def envW : OlxEnv :=
  { today := todayW, nowMs := 11 * DAY_MS, getTime := getTimeW, fmt := fmtW,
    pageUrl := pageUrlW }

/-- An entry whose date text is unparseable (kept as raw). -/
def adRawW : Ad :=
  { dt := strABC, title := "raw ad", priceText := "1,0", url := "u-raw", imgUrl := "img-raw" }

/-- An entry dated today at 10:30 (fresh). -/
def adFreshW : Ad :=
  { dt := strDz1030, title := "fresh ad", priceText := "2", url := "u-f", imgUrl := "img-f" }

/-- An entry dated January 1 (stale relative to `envW`). -/
def adStaleW : Ad :=
  { dt := str1sty, title := "stale ad", priceText := "3", url := "u-s", imgUrl := "img-s" }

/-- An entry after the stale one: it must be discarded. -/
def adPostW : Ad :=
  { dt := strDz1030, title := "post ad", priceText := "4", url := "u-p", imgUrl := "img-p" }

/- ## General lemmas -/

/-- `Promise.all` resolves when no member of the batch rejects. -/
theorem firstErr_none (outcome : String → Option CrawlErr) :
    ∀ batch : List String, (∀ s ∈ batch, outcome s = none) → firstErr outcome batch = none := by
  intro batch
  induction batch with
  | nil => intro _; rfl
  | cons s rest ih =>
    intro h
    have hs : outcome s = none := h s (by simp)
    rw [firstErr, hs]
    exact ih (fun t ht => h t (by simp [ht]))

/-- In a failure-free run, the loop of `scrapeOffers` launched from index
`i` produces exactly the consecutive pairs of the remaining sites. -/
theorem scrapeOffersFrom_noerr (outcome : String → Option CrawlErr) (sites : List String)
    (hout : ∀ s ∈ sites, outcome s = none) :
    ∀ i, scrapeOffersFrom outcome sites i = (pairChunks (List.drop i sites), none) := by
  have H : ∀ m i, sites.length - i ≤ m →
      scrapeOffersFrom outcome sites i = (pairChunks (List.drop i sites), none) := by
    intro m
    induction m with
    | zero =>
      intro i hi
      have hni : ¬ i < sites.length := by omega
      rw [scrapeOffersFrom, dif_neg hni, List.drop_eq_nil_of_le (by omega)]
      rfl
    | succ m ih =>
      intro i _
      by_cases h : i < sites.length
      · have hbatchmem : ∀ b : List String, (∀ s ∈ b, s ∈ sites) → firstErr outcome b = none :=
          fun b hb => firstErr_none outcome b (fun s hs => hout s (hb s hs))
        rw [scrapeOffersFrom, dif_pos h]
        by_cases h2 : i + 1 < sites.length
        · rw [dif_pos h2]
          have hfe : firstErr outcome [sites[i], sites[i + 1]] = none := by
            refine hbatchmem _ ?_
            intro s hs
            rcases List.mem_cons.mp hs with h1 | hs
            · exact h1 ▸ List.getElem_mem h
            · rcases List.mem_cons.mp hs with h1 | hs
              · exact h1 ▸ List.getElem_mem h2
              · cases hs
          simp only [hfe, ih (i + 2) (by omega)]
          rw [List.drop_eq_getElem_cons h, List.drop_eq_getElem_cons h2]
          rfl
        · rw [dif_neg h2]
          have hfe : firstErr outcome [sites[i]] = none := by
            refine hbatchmem _ ?_
            intro s hs
            rcases List.mem_cons.mp hs with h1 | hs
            · exact h1 ▸ List.getElem_mem h
            · cases hs
          simp only [hfe, ih (i + 2) (by omega)]
          have hd1 : List.drop (i + 1) sites = [] := List.drop_eq_nil_of_le (by omega)
          have hd2 : List.drop (i + 2) sites = [] := List.drop_eq_nil_of_le (by omega)
          rw [List.drop_eq_getElem_cons h, hd1, hd2]
          rfl
      · rw [scrapeOffersFrom, dif_neg h, List.drop_eq_nil_of_le (by omega)]
        rfl
  intro i
  exact H (sites.length - i) i le_rfl

/-- The page-index loop produces the arithmetic range of indices. -/
theorem olxNextPagesLoop_eq_range (baseUrl : String) (pagesCount : Nat) :
    ∀ i, olxNextPagesLoop baseUrl pagesCount i
      = (List.range' i (pagesCount - i)).map (fun k => baseUrl ++ pageQueryStr ++ toString k) := by
  have H : ∀ m i, pagesCount - i ≤ m →
      olxNextPagesLoop baseUrl pagesCount i
        = (List.range' i (pagesCount - i)).map
            (fun k => baseUrl ++ pageQueryStr ++ toString k) := by
    intro m
    induction m with
    | zero =>
      intro i hi
      have hni : ¬ i < pagesCount := by omega
      rw [olxNextPagesLoop, if_neg hni]
      have h0 : pagesCount - i = 0 := by omega
      rw [h0]
      rfl
    | succ m ih =>
      intro i _
      by_cases h : i < pagesCount
      · rw [olxNextPagesLoop, if_pos h, ih (i + 1) (by omega)]
        have h1 : pagesCount - i = (pagesCount - (i + 1)) + 1 := by omega
        rw [h1, List.range'_succ]
        rfl
      · rw [olxNextPagesLoop, if_neg h]
        have h0 : pagesCount - i = 0 := by omega
        rw [h0]
        rfl
  intro i
  exact H (pagesCount - i) i le_rfl

/- ## Claim theorems -/

/-- Claim C1: the claim states that `getPage` terminates once elapsed
wall-clock time exceeds the timeout budget, failing with a timeout error
carrying the last underlying error.  The code does not: in the catch branch
the timeout comparison only constructs an `Error` object and discards it,
so on a URL whose every load attempt fails the loop never terminates — for
every number of observed iterations, every attempt counter and every
elapsed time (in particular elapsed times far beyond any
`config.scrapeSiteTimeout`), the loop is still running and no error has
been raised or returned.  This contradicts the claim and the spec's stated
intent (§9 of the spec itself records this defect), so the claim is
recorded as a code bug, evidenced here. -/
theorem getPage_never_times_out (timeoutCfg : Nat) :
    ∀ fuel attempt elapsed, getPageGo failLoader timeoutCfg fuel attempt elapsed = none := by
  intro fuel
  induction fuel with
  | zero => intro _ _; rfl
  | succ n ih =>
    intro attempt elapsed
    rw [getPageGo]
    exact ih (attempt + 1) _

/-- Claim C5: on a first page with `pagesCount` counted pagination-link
elements, `getOlxUrlsToNextPages` returns exactly the URLs
`baseUrl ++ "&page=" ++ i` for `i = 2, …, pagesCount - 1` in increasing
order — `pagesCount - 2` URLs, i.e. one fewer than the raw count after
skipping the first counted link — and the empty list when that range is
empty (`pagesCount ≤ 2`).  Determinism is immediate because the embedding
is a pure function of its input. -/
theorem getOlxUrlsToNextPages_c5 (baseUrl : String) (pagesCount : Nat) :
    getOlxUrlsToNextPages baseUrl pagesCount
      = (List.range' 2 (pagesCount - 2)).map (fun k => baseUrl ++ pageQueryStr ++ toString k)
    ∧ (getOlxUrlsToNextPages baseUrl pagesCount).length = pagesCount - 2 := by
  refine ⟨olxNextPagesLoop_eq_range baseUrl pagesCount 2, ?_⟩
  rw [getOlxUrlsToNextPages, olxNextPagesLoop_eq_range baseUrl pagesCount 2]
  simp

/-- Claim C8: the staleness decision returns `true` exactly when
`now - (24h + 30s)` is later than
`timestamp - (sameDayToken ? 0 : 24h)`; at the boundary with
`sameDayToken = true`, a timestamp of `now - 24h - 31s` is stale and a
timestamp of `now - 24h - 29s` is not. -/
theorem olxIsStale_c8 (nowMs tsMs : Int) (sameDayToken : Bool) :
    (olxIsStale nowMs tsMs sameDayToken = true ↔
      nowMs - (DAY_MS + 1000 * 30) > tsMs - (if sameDayToken then 0 else DAY_MS))
    ∧ olxIsStale nowMs (nowMs - DAY_MS - 31000) true = true
    ∧ olxIsStale nowMs (nowMs - DAY_MS - 29000) true = false := by
  refine ⟨by simp [olxIsStale], ?_, ?_⟩
  · simp only [olxIsStale, DAY_MS, if_true, decide_eq_true_eq]
    omega
  · simp only [olxIsStale, DAY_MS, if_true, decide_eq_false_iff_not, gt_iff_lt, not_lt]
    omega

/-- Claim C10: when the page loop of `getSiteOffers` returns an error value
in-band next to the partially accumulated records, the per-site caller
`scrapeSiteOffers` ignores the error entirely — the outcome is identical to
a crawl that returned the same records with no error — and the partial
records are handed to the output file and counted in the success log line
exactly as in a normal completion. -/
theorem scrapeSiteOffers_ignores_error_c10
    (load : String → Except CrawlErr Nat) (extract : Nat → Except CrawlErr (List Nat × Bool))
    (nexts : Nat → List String) (fuel : Nat) (offers : List Nat) (url : String)
    (rest : List String) (cnt : Nat) (e : CrawlErr)
    (h : load url = Except.error e) :
    (getSiteOffersGo load extract nexts (fuel + 1) offers (url :: rest) cnt).map
        scrapeSiteOffersModel
      = some (SiteRunOutcome.completed { savedOffers := offers, loggedCount := offers.length })
    ∧ ∀ (offers2 : List Nat) (e2 : CrawlErr),
        scrapeSiteOffersModel (Except.ok (offers2, some e2))
          = scrapeSiteOffersModel (Except.ok (offers2, none)) := by
  constructor
  · rw [getSiteOffersGo, h]
    rfl
  · intro _ _
    rfl

/-- Witness for C10: a crawl whose only page fails to load returns the one
already-accumulated record in-band with the load error, and the caller
completes, saving that record and logging count 1. -/
theorem scrapeSiteOffers_ignores_error_c10_witness :
    (getSiteOffersGo loadFailW extractW nextsW 1 [7] [urlOne] 0).map scrapeSiteOffersModel
      = some (SiteRunOutcome.completed { savedOffers := [7], loggedCount := 1 }) := by
  have h := scrapeSiteOffers_ignores_error_c10 loadFailW extractW nextsW 0 [7] urlOne []
    0 CrawlErr.loadFail rfl
  simpa using h.1

/-- Claim C4: the claim states that the orchestrator launches exactly one
crawl per site, in consecutive pairs.  The `scrapeOffers` loop of the
unnamed module does (`scrapeOffersFrom_noerr`: a failure-free run launches
exactly `pairChunks sites`), but the
`scrapeAnnouncements` loop of scraper.ts is missing the second
`siteIndex++` before the await, so its batches overlap: over three sites it
launches five crawls — `[a,b]`, `[b,c]`, `[c]` — crawling the second and
third sites twice, contradicting "no site is crawled twice".  (The
at-most-2-in-flight part holds in both loops: every launched batch has at
most two members.)  Recorded as a code bug in scraper.ts, evidenced here at
the concrete failing input. -/
theorem scrapeAnnouncements_duplicates_c4 :
    scrapeAnnouncements noSiteErr [siteA, siteB, siteC]
      = ([[siteA, siteB], [siteB, siteC], [siteC]], none)
    ∧ (scrapeAnnouncements noSiteErr [siteA, siteB, siteC]).1.flatten ≠ [siteA, siteB, siteC]
    ∧ ∀ (outcome : String → Option CrawlErr) (sites : List String) (i : Nat),
        ∀ b ∈ (scrapeAnnouncementsFrom outcome sites i).1, b.length ≤ 2 := by
  have heval : scrapeAnnouncements noSiteErr [siteA, siteB, siteC]
      = ([[siteA, siteB], [siteB, siteC], [siteC]], none) := by
    simp [scrapeAnnouncements, scrapeAnnouncementsFrom, firstErr, noSiteErr]
  refine ⟨heval, ?_, ?_⟩
  · rw [heval]
    simp only [List.flatten]
    decide
  · intro outcome sites
    have H : ∀ m i, sites.length - i ≤ m →
        ∀ b ∈ (scrapeAnnouncementsFrom outcome sites i).1, b.length ≤ 2 := by
      intro m
      induction m with
      | zero =>
        intro i hi b hb
        have hni : ¬ i < sites.length := by omega
        rw [scrapeAnnouncementsFrom, dif_neg hni] at hb
        cases hb
      | succ m ih =>
        intro i _ b hb
        by_cases h : i < sites.length
        · rw [scrapeAnnouncementsFrom, dif_pos h] at hb
          by_cases h2 : i + 1 < sites.length
          · simp only [dif_pos h2] at hb
            cases hfe : firstErr outcome [sites[i], sites[i + 1]] with
            | some e =>
              simp only [hfe] at hb
              have h1 : b = [sites[i], sites[i + 1]] := by simpa using hb
              rw [h1]; simp
            | none =>
              simp only [hfe] at hb
              rcases List.mem_cons.mp hb with h1 | hmem
              · rw [h1]; simp
              · exact ih (i + 1) (by omega) b hmem
          · simp only [dif_neg h2] at hb
            cases hfe : firstErr outcome [sites[i]] with
            | some e =>
              simp only [hfe] at hb
              have h1 : b = [sites[i]] := by simpa using hb
              rw [h1]; simp
            | none =>
              simp only [hfe] at hb
              rcases List.mem_cons.mp hb with h1 | hmem
              · rw [h1]; simp
              · exact ih (i + 1) (by omega) b hmem
        · rw [scrapeAnnouncementsFrom, dif_neg h] at hb
          cases hb
    intro i
    exact H (sites.length - i) i le_rfl

/-- Witness for C4's bounded-batch conjunct: the first batch launched over
three sites has at most two members. -/
theorem scrapeAnnouncements_duplicates_c4_witness :
    (List.length [siteA, siteB]) ≤ 2 := by
  refine scrapeAnnouncements_duplicates_c4.2.2 noSiteErr [siteA, siteB, siteC] 0 [siteA, siteB] ?_
  simp [scrapeAnnouncementsFrom, firstErr, noSiteErr]

/-- Claim C2 (amended): the orchestrator does not catch or log a crawl
failure.  A site crawl that ends in a thrown error (extraction `ValueError`
or persistence failure — in-band load errors never reject, they are
silently swallowed by the per-site caller) rejects the `Promise.all` of its
pair: the already-launched sibling still runs, but `scrapeOffers` rethrows
the error and no later pair is ever launched.  Only when no crawl throws
does the run complete over the entire site list, launching exactly its
consecutive pairs. -/
theorem scrapeOffers_failure_aborts_c2
    (outcome : String → Option CrawlErr) (x y : String) (rest : List String) (e : CrawlErr)
    (hx : outcome x = some e) :
    scrapeOffers outcome (x :: y :: rest) = ([[x, y]], some e)
    ∧ ∀ (outcome2 : String → Option CrawlErr) (sites : List String),
        (∀ s ∈ sites, outcome2 s = none) →
        scrapeOffers outcome2 sites = (pairChunks sites, none) := by
  constructor
  · rw [scrapeOffers, scrapeOffersFrom]
    have h0 : 0 < (x :: y :: rest).length := by simp
    have h1 : 0 + 1 < (x :: y :: rest).length := by simp
    rw [dif_pos h0]
    simp only [dif_pos h1, List.getElem_cons_zero, List.getElem_cons_succ, firstErr, hx]
  · intro outcome2 sites hall
    rw [scrapeOffers, scrapeOffersFrom_noerr outcome2 sites hall 0, List.drop_zero]

/-- Witness for C2 (amended): with three sites where the first site's crawl
rejects, only the first pair is launched and the error propagates out of
the run; with no failures all three sites are launched as the pairs
`[a, b]`, `[c]`. -/
theorem scrapeOffers_failure_aborts_c2_witness :
    scrapeOffers outFailA (siteA :: siteB :: [siteC]) = ([[siteA, siteB]], some CrawlErr.valueErr)
    ∧ scrapeOffers noSiteErr [siteA, siteB, siteC] = (pairChunks [siteA, siteB, siteC], none) := by
  have h := scrapeOffers_failure_aborts_c2 outFailA siteA siteB [siteC] CrawlErr.valueErr rfl
  exact ⟨h.1, h.2 noSiteErr [siteA, siteB, siteC] (fun s _ => rfl)⟩

/-- Counterexample for C2 as stated: with sites `[a, b, c]` where `a`'s
crawl fails with a thrown error, the run does not complete over the entire
site list: the error escapes `scrapeOffers` uncaught (it is the second
component of the result) and site `c` — a site of a later pair — is never
crawled, so the launched crawls are not the full site list. -/
theorem scrapeOffers_failure_aborts_c2_counterexample :
    scrapeOffers outFailA [siteA, siteB, siteC] = ([[siteA, siteB]], some CrawlErr.valueErr)
    ∧ (scrapeOffers outFailA [siteA, siteB, siteC]).1.flatten ≠ [siteA, siteB, siteC] := by
  have heval : scrapeOffers outFailA [siteA, siteB, siteC]
      = ([[siteA, siteB]], some CrawlErr.valueErr) := by
    simp [scrapeOffers, scrapeOffersFrom, firstErr, outFailA]
  refine ⟨heval, ?_⟩
  rw [heval]
  simp only [List.flatten]
  decide

/-- Claim C3 (amended): `getSiteOffers` preserves partial results only for
load failures: when `getPage` throws, the loop returns the records
accumulated so far in-band together with that error, whatever the
accumulator holds.  But when extraction throws (e.g. the `ValueError` from
an unrecognized month abbreviation), the exception escapes `getSiteOffers`
— there is no catch around `getScraperPageAds` — and the accumulated
records are discarded with it, an all-or-nothing failure contradicting the
claim for the extraction case. -/
theorem getSiteOffers_error_paths_c3
    (load : String → Except CrawlErr Nat) (extract : Nat → Except CrawlErr (List Nat × Bool))
    (nexts : Nat → List String) (fuel : Nat) (offers : List Nat) (url : String)
    (rest : List String) (cnt : Nat) (e : CrawlErr) :
    (load url = Except.error e →
      getSiteOffersGo load extract nexts (fuel + 1) offers (url :: rest) cnt
        = some (Except.ok (offers, some e)))
    ∧ ∀ c, load url = Except.ok c → extract c = Except.error e →
      getSiteOffersGo load extract nexts (fuel + 1) offers (url :: rest) cnt
        = some (Except.error e) := by
  constructor
  · intro h
    rw [getSiteOffersGo, h]
  · intro c h1 h2
    rw [getSiteOffersGo, h1]
    simp only [h2]

/-- Witness for C3 (amended): a crawl holding one record whose next page
fails to load returns that record with the load error; a crawl whose page
extraction throws the `ValueError` ends in that exception. -/
theorem getSiteOffers_error_paths_c3_witness :
    getSiteOffersGo loadFailW extractW nextsW 1 [7] [urlOne] 1
      = some (Except.ok ([7], some CrawlErr.loadFail))
    ∧ getSiteOffersGo loadW extractW nextsW 1 [] [urlTwo] 1
      = some (Except.error CrawlErr.valueErr) := by
  refine ⟨(getSiteOffers_error_paths_c3 loadFailW extractW nextsW 0 [7] urlOne [] 1
    CrawlErr.loadFail).1 rfl, ?_⟩
  exact (getSiteOffers_error_paths_c3 loadW extractW nextsW 0 [] urlTwo [] 1
    CrawlErr.valueErr).2 2 rfl rfl

/-- Counterexample for C3 as stated: a crawl whose first page loads and
yields two records (not done), and whose second page's extraction throws,
ends in the bare exception — the two accumulated records are not returned
with the error, so the failure is all-or-nothing, contrary to the claim. -/
theorem getSiteOffers_error_paths_c3_counterexample :
    extractW 1 = Except.ok ([10, 11], false)
    ∧ getSiteOffers loadW extractW nextsW urlOne 5 = some (Except.error CrawlErr.valueErr) :=
  ⟨rfl, rfl⟩

/-- Claim C6: on an input of exactly two space-separated tokens whose
first token is an integer day (it parses and round-trips under the
`isNaN`/`+day` checks) and whose second token's 3-letter head is a
recognized month abbreviation mapping to month `m`, `normalize` returns
the calendar date at that month and day in the current year — except that
when the month is December (`m = 11`) and the day is numerically greater
than today's day-of-month, the year is rolled back by one. -/
theorem parseOlxAdTime_month_c6 (today : SimpleDate) (s dayS mpS : String) (d m : Nat)
    (htok : jsSplitFilter s = [dayS, mpS])
    (hp : jsParseInt dayS = some d) (hn : jsToNumber dayS = some d)
    (hm : mapMonthPrefixToMonth (strTake3 mpS) true = Except.ok (Sum.inl m)) :
    parseOlxAdTime today s = Except.ok (Sum.inl
      { year := if m = 11 ∧ today.day < (d : Int) then today.year - 1 else today.year,
        month := (m : Int), day := (d : Int), hour := 0, minute := 0 }) := by
  have hzd : jsToNumber dzisiajStr = none := by decide
  have hzw : jsToNumber wczorajStr = none := by decide
  have hne1 : dayS ≠ dzisiajStr := by
    intro hEq
    rw [hEq, hzd] at hn
    exact Option.noConfusion hn
  have hne2 : dayS ≠ wczorajStr := by
    intro hEq
    rw [hEq, hzw] at hn
    exact Option.noConfusion hn
  have hdr : dayRoundTrip (some dayS) = some d := by
    simp [dayRoundTrip, jsParseIntOpt, jsToNumberOpt, hp, hn]
  rw [parseOlxAdTime]
  simp only [htok, List.length_cons, List.length_nil, List.headD_cons,
    List.getElem?_cons_zero, List.getElem?_cons_succ]
  rw [if_neg (by omega)]
  rw [if_neg (by simp [hne1, hne2])]
  simp only [ parseOlxAdDateWithMontPrefix, hdr, hm]

/-- Witness for C6: the spec's two test vectors — the raw text
`"29 gru"` normalized with "now" 2024-01-05 yields the calendar date
2023-12-29 (year rolled back), and with "now" 2024-12-30 yields
2024-12-29 (no rollback).  Months are 0-based, so December is 11 and
January is 0. -/
theorem parseOlxAdTime_month_c6_witness :
    parseOlxAdTime { year := 2024, month := 0, day := 5, hour := 0, minute := 0 } s29gru
      = Except.ok (Sum.inl { year := 2023, month := 11, day := 29, hour := 0, minute := 0 })
    ∧ parseOlxAdTime { year := 2024, month := 11, day := 30, hour := 0, minute := 0 } s29gru
      = Except.ok (Sum.inl { year := 2024, month := 11, day := 29, hour := 0, minute := 0 }) := by
  constructor
  · have h := parseOlxAdTime_month_c6 { year := 2024, month := 0, day := 5, hour := 0, minute := 0 }
      s29gru d29Str gruStr 29 11 (by decide) (by decide) (by decide) (by decide)
    rw [h]
    norm_num
  · have h := parseOlxAdTime_month_c6 { year := 2024, month := 11, day := 30, hour := 0, minute := 0 }
      s29gru d29Str gruStr 29 11 (by decide) (by decide) (by decide) (by decide)
    rw [h]
    norm_num

/-- Claim C7 (amended): `normalize`'s behavior by input shape, as the code
has it.  More than two tokens: the original string is returned unchanged
as unparsed.  Zero tokens, or one token (today/yesterday word or not):
the call raises a TypeError (a method is invoked on `undefined`), so
"never raises" fails for these non-matching inputs.  Two tokens whose
first fails the `isNaN`/`+day` round-trip: the call returns an unparsed
label rebuilt from the tokens — `day ++ " " ++ first-3-letters-of-month` —
which differs from the original input when the month token is longer than
three letters or the whitespace is not a single space.  Two tokens with an
integer first token and an unrecognized 3-letter month fragment: ValueError,
as the claim says.  A today/yesterday word with a clock token failing the
round-trip: unparsed label rebuilt as `word ++ " " ++ clock-token`. -/
theorem parseOlxAdTime_shapes_c7 :
    (∀ (today : SimpleDate) (s : String), (jsSplitFilter s).length > 2 →
      parseOlxAdTime today s = Except.ok (Sum.inr s))
    ∧ (∀ (today : SimpleDate) (s : String), jsSplitFilter s = [] →
      parseOlxAdTime today s = Except.error JsError.typeError)
    ∧ (∀ (today : SimpleDate) (s t : String), jsSplitFilter s = [t] →
      parseOlxAdTime today s = Except.error JsError.typeError)
    ∧ (∀ (today : SimpleDate) (s dayS mpS : String), jsSplitFilter s = [dayS, mpS] →
      dayS ≠ dzisiajStr → dayS ≠ wczorajStr → dayRoundTrip (some dayS) = none →
      parseOlxAdTime today s = Except.ok (Sum.inr (dayS ++ spaceStr ++ strTake3 mpS)))
    ∧ (∀ (today : SimpleDate) (s dayS mpS : String) (n : Nat), jsSplitFilter s = [dayS, mpS] →
      dayS ≠ dzisiajStr → dayS ≠ wczorajStr → dayRoundTrip (some dayS) = some n →
      mapMonthPrefixToMonth (strTake3 mpS) true = Except.error JsError.valueError →
      parseOlxAdTime today s = Except.error JsError.valueError)
    ∧ (∀ (today : SimpleDate) (s w t : String), jsSplitFilter s = [w, t] →
      (w = dzisiajStr ∨ w = wczorajStr) → hmRoundTrip t = none →
      parseOlxAdTime today s = Except.ok (Sum.inr (w ++ spaceStr ++ t))) := by
  refine ⟨?_, ?_, ?_, ?_, ?_, ?_⟩
  · intro today s h
    simp only [parseOlxAdTime]
    rw [if_pos h]
  · intro today s htok
    simp only [parseOlxAdTime, htok, List.length_nil, List.headD_nil, List.getElem?_nil]
    rw [if_neg (by omega), if_neg (by decide)]
    rfl
  · intro today s t htok
    simp only [parseOlxAdTime, htok, List.length_cons, List.length_nil, List.headD_cons,
      List.getElem?_cons_zero, List.getElem?_cons_succ, List.getElem?_nil]
    rw [if_neg (by omega)]
    by_cases ht : t = dzisiajStr ∨ t = wczorajStr
    · rw [if_pos ht]
      rfl
    · rw [if_neg ht]
      rfl
  · intro today s dayS mpS htok hne1 hne2 hdr
    simp only [parseOlxAdTime, htok, List.length_cons, List.length_nil, List.headD_cons,
      List.getElem?_cons_zero, List.getElem?_cons_succ]
    rw [if_neg (by omega), if_neg (by simp [hne1, hne2])]
    simp only [ parseOlxAdDateWithMontPrefix, hdr, jsStr]
  · intro today s dayS mpS n htok hne1 hne2 hdr hm
    simp only [parseOlxAdTime, htok, List.length_cons, List.length_nil, List.headD_cons,
      List.getElem?_cons_zero, List.getElem?_cons_succ]
    rw [if_neg (by omega), if_neg (by simp [hne1, hne2])]
    simp only [ parseOlxAdDateWithMontPrefix, hdr, hm]
  · intro today s w t htok hw hhm
    simp only [parseOlxAdTime, htok, List.length_cons, List.length_nil, List.headD_cons,
      List.getElem?_cons_zero, List.getElem?_cons_succ]
    rw [if_neg (by omega), if_pos hw]
    simp only [parseOlxAdTimeWithTodayYesterday, hhm]

/-- Witness for C7 (amended): one concrete input per shape — `"a b c"`
comes back unchanged; `" "` (zero tokens) and `"abc"` (one token) raise a
TypeError; `"x grudnia"` comes back as the rebuilt label `"x gru"`;
`"12 xyz"` raises the ValueError; `"dzisiaj 9x"` comes back as
`"dzisiaj 9x"`. -/
theorem parseOlxAdTime_shapes_c7_witness :
    parseOlxAdTime todayW strABC = Except.ok (Sum.inr strABC)
    ∧ parseOlxAdTime todayW strSpace = Except.error JsError.typeError
    ∧ parseOlxAdTime todayW strAbc = Except.error JsError.typeError
    ∧ parseOlxAdTime todayW strXGrudnia = Except.ok (Sum.inr (strXtok ++ spaceStr ++ strTake3 strGrudniaTok))
    ∧ parseOlxAdTime todayW str12xyz = Except.error JsError.valueError
    ∧ parseOlxAdTime todayW strDz9x = Except.ok (Sum.inr (dzisiajStr ++ spaceStr ++ str9xTok)) := by
  refine ⟨?_, ?_, ?_, ?_, ?_, ?_⟩
  · exact parseOlxAdTime_shapes_c7.1 todayW strABC (by decide)
  · exact parseOlxAdTime_shapes_c7.2.1 todayW strSpace (by decide)
  · exact parseOlxAdTime_shapes_c7.2.2.1 todayW strAbc strAbc (by decide)
  · exact parseOlxAdTime_shapes_c7.2.2.2.1 todayW strXGrudnia strXtok strGrudniaTok
      (by decide) (by decide) (by decide) (by decide)
  · exact parseOlxAdTime_shapes_c7.2.2.2.2.1 todayW str12xyz str12tok strXyzTok 12
      (by decide) (by decide) (by decide) (by decide) (by decide)
  · exact parseOlxAdTime_shapes_c7.2.2.2.2.2 todayW strDz9x dzisiajStr str9xTok
      (by decide) (by decide) (by decide)

/-- Counterexample for C7 as stated: the one-token input `"abc"` matches
neither shape yet raises a TypeError rather than being returned unchanged,
and the two-token input `"x grudnia"` (first token fails the numeric
round-trip) is returned as the rebuilt label `"x gru"`, which is not the
original string. -/
theorem parseOlxAdTime_shapes_c7_counterexample :
    parseOlxAdTime todayW strAbc = Except.error JsError.typeError
    ∧ parseOlxAdTime todayW strXGrudnia = Except.ok (Sum.inr strXgru)
    ∧ strXgru ≠ strXGrudnia := by
  refine ⟨by decide, by decide, by decide⟩

/-- A kept (raw or fresh) entry contributes its record and the loop of
`parseOlxPageAds` continues on the remaining entries at the next index. -/
theorem parseOlxPageAdsGo_cons_kept (env : OlxEnv) (i : Nat) (ad : Ad) (rest : List Ad)
    (h : classifyAd env ad = AdClass.raw ∨ classifyAd env ad = AdClass.fresh) :
    parseOlxPageAdsGo env i (ad :: rest)
      = match parseOlxPageAdsGo env (i + 1) rest with
        | Except.error e => Except.error e
        | Except.ok (anns, done) => Except.ok (keptAnn env i ad :: anns, done) := by
  rcases hp : parseOlxAdTime env.today ad.dt with e | v
  · simp only [classifyAd, hp] at h
    rcases h with h | h <;> cases h
  · rcases v with d | s2
    · cases hst : olxIsStale env.nowMs (env.getTime d) (testTodayYesterday ad.dt) with
      | true =>
        simp only [classifyAd, hp, hst, if_true] at h
        rcases h with h | h <;> cases h
      | false =>
        simp only [parseOlxPageAdsGo, hp, hst, Bool.false_eq_true, if_false,
          keptAnn]
    · simp only [parseOlxPageAdsGo, hp, keptAnn]

/-- Claim C9: iterating entries in document order, extraction stops at the
first entry whose normalized date is a stale timestamp: that entry and all
later entries contribute nothing, and the result is `done = true` with
exactly the records of the earlier entries in their original order (indexed
from 0 as on the page).  The hypothesis on the earlier entries admits both
fresh timestamps and raw/unparsed labels, so unparsed entries are kept and
never trigger the cutoff. -/
theorem parseOlxPageAds_cutoff_c9 (env : OlxEnv) (pre post : List Ad) (adS : Ad)
    (hpre : ∀ a ∈ pre, classifyAd env a = AdClass.raw ∨ classifyAd env a = AdClass.fresh)
    (hstale : classifyAd env adS = AdClass.stale) :
    parseOlxPageAds env (pre ++ adS :: post) = Except.ok (keptList env 0 pre, true) := by
  have hbase : ∀ i, parseOlxPageAdsGo env i (adS :: post) = Except.ok ([], true) := by
    intro i
    rcases hp : parseOlxAdTime env.today adS.dt with e | v
    · simp only [classifyAd, hp] at hstale
      cases hstale
    · rcases v with d | s2
      · cases hst : olxIsStale env.nowMs (env.getTime d) (testTodayYesterday adS.dt) with
        | false =>
          simp only [classifyAd, hp, hst, Bool.false_eq_true, if_false] at hstale
          cases hstale
        | true =>
          simp only [parseOlxPageAdsGo, hp, hst, if_true]
      · simp only [classifyAd, hp] at hstale
        cases hstale
  have H : ∀ (pre2 : List Ad) (i : Nat),
      (∀ a ∈ pre2, classifyAd env a = AdClass.raw ∨ classifyAd env a = AdClass.fresh) →
      parseOlxPageAdsGo env i (pre2 ++ adS :: post) = Except.ok (keptList env i pre2, true) := by
    intro pre2
    induction pre2 with
    | nil =>
      intro i _
      simpa using hbase i
    | cons a rest ih =>
      intro i hall
      have ha := hall a (by simp)
      rw [List.cons_append, parseOlxPageAdsGo_cons_kept env i a _ ha,
        ih (i + 1) (fun b hb => hall b (by simp [hb]))]
      rfl
  exact H pre 0 hpre

/-- Witness for C9: over the page `[raw, fresh, stale, post]` — an
unparseable date text, a fresh same-day entry, a stale January-1 entry and
a trailing entry — extraction returns exactly the records of the raw and
fresh entries (in order, indices 0 and 1) with `done = true`; the raw entry
is kept and does not trigger the cutoff, the stale entry does, and the
trailing entry is discarded. -/
theorem parseOlxPageAds_cutoff_c9_witness :
    parseOlxPageAds envW ([adRawW, adFreshW] ++ adStaleW :: [adPostW])
      = Except.ok (keptList envW 0 [adRawW, adFreshW], true) :=
  parseOlxPageAds_cutoff_c9 envW [adRawW, adFreshW] [adPostW] adStaleW (by decide) (by decide)

end FlatScrape
